import Mathlib

/-!
Verification of `pkg/minikube/cluster/cluster.go` (minikube host lifecycle).

The Go source is shallowly embedded: every function of the excerpt that the
properties mention is translated into an executable Lean definition.  External
collaborators (the libmachine store, the drivers, the provisioner, the network
enumeration API, the vboxmanage subprocess) are modelled as explicit inputs:
a `World` state carries the persisted record, the live driver state and
injectable results for each collaborator call, so that every control path of
the Go code is representable.  A Go call that can panic is modelled with an
`Option` layer where `none` marks the panic.
-/

/-- Driver state, from libmachine's state enumeration (external collaborator
of the excerpt): `None`, `Running`, `Paused`, `Saved`, `Stopped`, `Stopping`,
`Starting`, `Error`, `Timeout`. -/
inductive MachineState where
  | None
  | Running
  | Paused
  | Saved
  | Stopped
  | Stopping
  | Starting
  | Error
  | Timeout
deriving DecidableEq, Repr

/-- Textual form of a state, libmachine `state.String()`. -/
def stateString : MachineState → String
  | MachineState.None => "None"
  | MachineState.Running => "Running"
  | MachineState.Paused => "Paused"
  | MachineState.Saved => "Saved"
  | MachineState.Stopped => "Stopped"
  | MachineState.Stopping => "Stopping"
  | MachineState.Starting => "Starting"
  | MachineState.Error => "Error"
  | MachineState.Timeout => "Timeout"

/-- Engine options persisted in a machine record
(libmachine `engine.Options`, the fields `cluster.go` uses). -/
structure EngineOpts where
  Env : List String
  InsecureRegistry : List String
  RegistryMirror : List String
  ArbitraryFlags : List String
deriving DecidableEq, Repr

/-- Auth options of a machine record (the two fields `createHost` sets). -/
structure AuthOpts where
  CertDir : String
  StorePath : String
deriving DecidableEq, Repr

/-- The persisted machine record (libmachine `host.Host`, the fields
`cluster.go` reads or writes: name, driver name, the opaque raw driver
configuration blob, and the host options). -/
structure Host where
  Name : String
  DriverName : String
  RawDriver : String
  EngineOptions : EngineOpts
  AuthOptions : AuthOpts
deriving DecidableEq, Repr

/-- The caller-supplied machine configuration
(`cfg.MachineConfig`, the fields `cluster.go` uses). -/
structure MachineConfig where
  VMDriver : String
  CPUs : Nat
  Memory : Nat
  DiskSize : Nat
  DockerEnv : List String
  InsecureRegistry : List String
  RegistryMirror : List String
  DockerOpt : List String
  MinikubeISO : String
deriving DecidableEq, Repr

/-- Modelled from the spec: the well-known default service CIDR constant
(`pkgutil.DefaultServiceCIDR` from `pkg/util`, which is outside the excerpt);
the spec calls it the mandatory first entry of every insecure-registry list. -/
def DefaultServiceCIDR : String := "10.96.0.0/12"

/-- Translation of `engineOptions` (cluster.go lines 231-239): the engine
options recomputed from the supplied config, with the default service CIDR
prepended to the insecure registries. -/
def engineOptions (config : MachineConfig) : EngineOpts :=
  { Env := config.DockerEnv
    InsecureRegistry := DefaultServiceCIDR :: config.InsecureRegistry
    RegistryMirror := config.RegistryMirror
    ArbitraryFlags := config.DockerOpt }

/-- Escape of one character in an ordinary text context of Go's
`html/template` (the template engine `GetMountCommand` uses). -/
def htmlEscapeChar (c : Char) : String :=
  if c = '<' then "&lt;"
  else if c = '>' then "&gt;"
  else if c = '&' then "&amp;"
  else if c = Char.ofNat 39 then "&#39;"
  else if c = Char.ofNat 34 then "&#34;"
  else String.singleton c

/-- Escape of a whole interpolated value, as Go's `html/template` performs
it before substituting the value into the text of the template. -/
def htmlEscape (s : String) : String :=
  String.join (s.data.map htmlEscapeChar)

/-- Translation of `GetMountCleanupCommand` (cluster.go lines 464-466). -/
def GetMountCleanupCommand (path : String) : String :=
  "sudo umount " ++ path ++ ";"

/-- Translation of `GetMountCommand` (cluster.go lines 468-497): the fixed
`mountTemplate` rendered by `html/template` with the given data.  String
fields pass through the template's text-context escaping; the integer fields
are rendered in decimal exactly as Go prints an `int`.  `template.Execute`
cannot fail on this fixed template, so the `error` result is dropped. -/
def GetMountCommand (ip path port mountVersion : String) (uid gid msize : Int) : String :=
  "\nsudo mkdir -p " ++ htmlEscape path ++ " || true;\n" ++
  "sudo mount -t 9p -o trans=tcp,port=" ++ htmlEscape port ++
  ",dfltuid=" ++ toString uid ++ ",dfltgid=" ++ toString gid ++
  ",version=" ++ htmlEscape mountVersion ++ ",msize=" ++ toString msize ++
  " " ++ htmlEscape ip ++ " " ++ htmlEscape path ++ ";\n" ++
  "sudo chmod 775 " ++ htmlEscape path ++ " || true;"

/-- Number of (possibly overlapping) occurrences of the pattern in the
character list: one per position at which the pattern starts. -/
def occurrences (pat : List Char) : List Char → Nat
  | [] => 0
  | c :: rest =>
    (if pat.isPrefixOf (c :: rest) then 1 else 0) + occurrences pat rest

/-- Number of positions of `s` at which the pattern `pat` occurs. -/
def countOccur (pat s : String) : Nat :=
  occurrences pat.data s.data

/-- One address of a network interface, as Go's `net.Interface.Addrs`
returns them.  `ipNet to4` is a `*net.IPNet` value whose `IP.To4()` result
is `to4` (`some` of the dotted textual IPv4 form when the address has a
valid IPv4 representation, `none` for a pure IPv6 address); `other` is an
address of any other dynamic type, which the code's type assertion skips. -/
inductive Addr where
  | ipNet (to4 : Option String)
  | other
deriving DecidableEq, Repr

/-- The host's network-interface table (`net.InterfaceByName`): `none` when
no interface of that name exists. -/
def IfaceTable : Type := String → Option (List Addr)

/-- The loop of `getIPForInterface` (cluster.go lines 403-410): walk the
addresses, skip anything that is not a `*net.IPNet`, return the first
`To4()` result that is non-nil, and otherwise report the no-IPv4 error. -/
def loopV4 (name : String) : List Addr → Except String String
  | [] => Except.error ("Error finding IPV4 address for " ++ name)
  | a :: rest =>
    match a with
    | Addr.ipNet to4 =>
      match to4 with
      | some ip => Except.ok ip
      | none => loopV4 name rest
    | Addr.other => loopV4 name rest

/-- Translation of `getIPForInterface` (cluster.go lines 400-411).  The
error of `net.InterfaceByName` is discarded; on a missing interface the
`*net.Interface` is nil and its `Addrs()` method reports an error (which the
code also discards), leaving the nil address slice, so the loop runs over
the empty list. -/
def getIPForInterface (name : String) (ifaces : IfaceTable) : Except String String :=
  let addrs : List Addr :=
    match ifaces name with
    | none => []
    | some as => as
  loopV4 name addrs

/-- The lazy capture `(.*?)post` attempted at one position: try `post`
first (lazy, so the shortest capture wins); otherwise consume one character
into the capture — but `.` does not match a newline in a Go regular
expression, so a newline before any `post` occurrence fails this attempt. -/
def capBefore (post : List Char) : List Char → Option (List Char)
  | [] => if post.isEmpty then some [] else none
  | c :: rest =>
    if post.isPrefixOf (c :: rest) then some []
    else if c = '\n' then none
    else (capBefore post rest).map (fun l => c :: l)

/-- Leftmost-match scan of `pre(.*?)post` over the character list: at each
position where `pre` matches, attempt the lazy capture; when the attempt
fails (no `post` before a newline), the engine resumes the scan at the next
position, exactly as Go's RE2 looks for the leftmost match. -/
def scanCapture (pre post : List Char) : List Char → Option (List Char)
  | [] => if pre.isEmpty then capBefore post [] else none
  | c :: rest =>
    if pre.isPrefixOf (c :: rest) then
      match capBefore post ((c :: rest).drop pre.length) with
      | some cap => some cap
      | none => scanCapture pre post rest
    else scanCapture pre post rest

/-- Capture group of the Go regular expression `pre(.*?)post` applied to
`s` (`regexp.FindStringSubmatch` index 1): the shortest newline-free text
between the leftmost viable occurrence of `pre` and a following `post`;
`none` when `FindStringSubmatch` returns nil because no such match exists
(in particular when every candidate capture would have to cross a newline,
which `.` does not match). -/
def regexCapture (pre post s : String) : Option String :=
  (scanCapture pre.data post.data s.data).map String.mk

/-- Translation of `GetVMHostIP` (cluster.go lines 364-397).  The ambient
inputs are explicit: `ifaces` is the host's interface table and `vboxOut`
the result of running `vboxmanage showvminfo --machinereadable`.  The outer
`Option` marks a Go panic: the code indexes `FindStringSubmatch(...)[1]`
without a nil check, so a blob or tool output that the pattern does not
match panics (`none`); every non-panicking path is `some` of the
`(net.IP, error)` result, with the IP in dotted textual form. -/
def GetVMHostIP (host : Host) (ifaces : IfaceTable) (vboxOut : Except String String) :
    Option (Except String String) :=
  if host.DriverName = "kvm" then some (Except.ok "192.168.42.1")
  else if host.DriverName = "kvm2" then some (Except.ok "192.168.39.1")
  else if host.DriverName = "hyperv" then
    match regexCapture "\x22VSwitch\x22: \x22" "\x22," host.RawDriver with
    | none => none
    | some vswitch =>
      match getIPForInterface ("vEthernet (" ++ vswitch ++ ")") ifaces with
      | Except.error m =>
        some (Except.error ("ip for interface (" ++ vswitch ++ "): " ++ m))
      | Except.ok ip => some (Except.ok ip)
  else if host.DriverName = "virtualbox" then
    match vboxOut with
    | Except.error m => some (Except.error ("vboxmanage: " ++ m))
    | Except.ok out =>
      match regexCapture "hostonlyadapter2=\x22" "\x22" out with
      | none => none
      | some iface =>
        match getIPForInterface iface ifaces with
        | Except.error m =>
          some (Except.error ("Error getting VM/Host IP address: " ++ m))
        | Except.ok ip => some (Except.ok ip)
  else if host.DriverName = "xhyve" then some (Except.ok "192.168.64.1")
  else if host.DriverName = "hyperkit" then some (Except.ok "192.168.64.1")
  else some (Except.error "Error, attempted to get host ip address for unsupported driver")

/-- Whether an address has a valid IPv4 representation (an IPNet whose
`To4()` is non-nil), as the spec's interface-to-address contract reads. -/
def hasIPv4 : Addr → Bool
  | Addr.ipNet (some _) => true
  | Addr.ipNet none => false
  | Addr.other => false

/-- The IPv4 representation of an address, when it has one. -/
def addrIPv4 : Addr → Option String
  | Addr.ipNet to4 => to4
  | Addr.other => none

/-- Formalisation of the spec's contract: the first address of the list
that has a valid IPv4 representation. -/
def firstIPv4 (as : List Addr) : Option String :=
  (as.find? hasIPv4).bind addrIPv4


/-- Observable actions of one run that the properties count or order:
invocations of the store's create/save/remove, the driver's start/stop and
remove, the power-off SSH command, and the driver-mismatch warning. -/
inductive Event where
  | create
  | save
  | driverStart
  | stop
  | driverRemove
  | apiRemove
  | powerOffSSH
  | warnDriverMismatch
  | warnDeprecated
deriving DecidableEq, Repr

/-- The error `host.Stop()` can report, as `StopHost` inspects it: either
libmachine's `mcnerror.ErrHostAlreadyInState` carrying the state the host is
already in, or any other failure. -/
inductive StopError where
  | alreadyInState (s : MachineState)
  | other (msg : String)
deriving DecidableEq, Repr

/-- Error classification of the excerpt: ordinary wrapped errors
(`errors.Wrap`), `util.RetriableError`, and the two process-exit calls of
`createHost` (`exit.Usage`, `exit.WithError`). -/
inductive MErr where
  | wrap (msg : String)
  | retriable (msg : String)
  | exitUsage (msg : String)
  | exitWithError (msg : String)
deriving DecidableEq, Repr

/-- State of one run: the persisted record for the machine name, the
driver's live machine state, the event trace, and one injectable result per
external-collaborator call (`none` means the call succeeds), plus the driver
registry's table of known kinds and the deprecation-notification flag. -/
structure World where
  store : Option Host
  live : MachineState
  events : List Event
  existsErr : Option String
  loadErr : Option String
  newHostErr : Option String
  createErr : Option String
  saveErr : Option String
  cacheErr : Option String
  stateErr : Option String
  startErr : Option String
  stopRes : Option StopError
  removeErr : Option String
  apiRemoveErr : Option String
  configureAuthErr : Option String
  detectProvErr : Option String
  provisionErr : Option String
  knownDrivers : List String
  showDeprecation : Bool
deriving DecidableEq, Repr

/-- A world in which every external collaborator succeeds: only the store
contents, the live state, the trace so far and the registry are chosen. -/
def World.clean (store : Option Host) (live : MachineState) (events : List Event)
    (knownDrivers : List String) : World :=
  { store := store, live := live, events := events,
    existsErr := none, loadErr := none, newHostErr := none, createErr := none,
    saveErr := none, cacheErr := none, stateErr := none, startErr := none,
    stopRes := none, removeErr := none, apiRemoveErr := none,
    configureAuthErr := none, detectProvErr := none, provisionErr := none,
    knownDrivers := knownDrivers, showDeprecation := false }

/-- Result of one lifecycle operation: the Go `(value, error)` pair together
with the world after the operation. -/
inductive Res (α : Type) where
  | ok (a : α) (w : World)
  | err (e : MErr) (w : World)
deriving DecidableEq, Repr

/-- Append one event to the trace. -/
def emit (e : Event) (w : World) : World :=
  { w with events := w.events ++ [e] }

/-- The machine name `cfg.GetMachineName()` resolves to (the well-known
default profile name; every operation of the excerpt addresses this name). -/
def machineName : String := "minikube"

/-- Modelled from the spec: `constants.GetMinipath()` (outside the excerpt),
the local state directory used for the record's cert and store paths. -/
def minipath : String := ".minikube"

/-- The store's `api.Exists` for the machine name. -/
def apiExists (w : World) : Except String Bool × World :=
  match w.existsErr with
  | some m => (Except.error m, w)
  | none => (Except.ok w.store.isSome, w)

/-- The store's `api.Load` for the machine name. -/
def apiLoad (w : World) : Except String Host × World :=
  match w.loadErr with
  | some m => (Except.error m, w)
  | none =>
    match w.store with
    | some h => (Except.ok h, w)
    | none => (Except.error "machine does not exist", w)

/-- The store's `api.NewHost`: build an in-memory record for the driver kind
and its marshalled configuration blob (nothing is persisted yet). -/
def apiNewHost (kind data : String) (w : World) : Except String Host × World :=
  match w.newHostErr with
  | some m => (Except.error m, w)
  | none =>
    (Except.ok
      { Name := machineName, DriverName := kind, RawDriver := data,
        EngineOptions := { Env := [], InsecureRegistry := [], RegistryMirror := [], ArbitraryFlags := [] },
        AuthOptions := { CertDir := "", StorePath := "" } }, w)

/-- The store's `api.Create`: invoke the driver's create operation; a
successful create leaves the machine running. -/
def apiCreate (w : World) : Option String × World :=
  let w1 := emit Event.create w
  match w1.createErr with
  | some m => (some m, w1)
  | none => (none, { w1 with live := MachineState.Running })

/-- The store's `api.Save`: persist the record. -/
def apiSave (h : Host) (w : World) : Option String × World :=
  match w.saveErr with
  | some m => (some m, w)
  | none => (none, { w with store := some h, events := w.events ++ [Event.save] })

/-- The store's `api.Remove`: drop the persisted record. -/
def apiRemove (w : World) : Option String × World :=
  let w1 := emit Event.apiRemove w
  match w1.apiRemoveErr with
  | some m => (some m, w1)
  | none => (none, { w1 with store := none })

/-- The driver's `GetState`, always queried fresh from the live state. -/
def driverGetState (w : World) : Except String MachineState × World :=
  match w.stateErr with
  | some m => (Except.error m, w)
  | none => (Except.ok w.live, w)

/-- The driver's `Start`. -/
def driverStart (w : World) : Option String × World :=
  match w.startErr with
  | some m => (some m, w)
  | none => (none, { w with live := MachineState.Running, events := w.events ++ [Event.driverStart] })

/-- The driver's `Remove` (resource teardown). -/
def driverRemove (w : World) : Option String × World :=
  let w1 := emit Event.driverRemove w
  match w1.removeErr with
  | some m => (some m, w1)
  | none => (none, w1)

/-- The record's `host.Stop()`; a successful stop leaves the machine
stopped. -/
def hostStop (w : World) : Option StopError × World :=
  match w.stopRes with
  | some e => (some e, w)
  | none => (none, { w with live := MachineState.Stopped, events := w.events ++ [Event.stop] })

/-- The record's `ConfigureAuth` (libmachine provisioning plumbing). -/
def configureAuth (w : World) : Option String × World :=
  (w.configureAuthErr, w)

/-- `provision.DetectProvisioner` on the record's driver. -/
def detectProvisioner (w : World) : Option String × World :=
  (w.detectProvErr, w)

/-- The detected provisioner's `Provision` step. -/
def provisionStep (w : World) : Option String × World :=
  (w.provisionErr, w)

/-- `config.Downloader.CacheMinikubeISOFromURL` (image cache collaborator). -/
def cacheISO (w : World) : Option String × World :=
  (w.cacheErr, w)

/-- Modelled from the spec: the driver registry's `registry.Driver(kind)`
(outside the excerpt), which resolves a factory for a known kind and reports
`ErrDriverNotFound` for any other kind; modelled as membership in the
world's table of known kinds. -/
def registryKnows (kind : String) (w : World) : Prop :=
  kind ∈ w.knownDrivers

instance (kind : String) (w : World) : Decidable (registryKnows kind w) :=
  inferInstanceAs (Decidable (kind ∈ w.knownDrivers))

/-- The opaque driver-specific configuration constructed by the resolved
factory and marshalled to JSON (`def.ConfigCreator` plus `json.Marshal`);
opaque to the excerpt, modelled as a tagged function of the config. -/
def driverConfigBlob (config : MachineConfig) : String :=
  "driver-config:" ++ config.VMDriver

/-- Translation of `preCreateHost` (cluster.go lines 241-267): for the
deprecated kinds `kvm`, `xhyve` and `vmwarefusion`, when the notification
setting is on, print a deprecation warning; always succeeds. -/
def preCreateHost (config : MachineConfig) (w : World) : World :=
  if (config.VMDriver = "kvm" ∨ config.VMDriver = "xhyve" ∨ config.VMDriver = "vmwarefusion")
      ∧ w.showDeprecation = true then
    emit Event.warnDeprecated w
  else w

/-- Translation of `createHost` (cluster.go lines 269-316): deprecation
check, driver-factory resolution (an unknown kind exits with a usage error,
before any store or driver action), ISO caching for every kind but `none`,
record construction, auth-option and engine-option assignment, the driver
create (on failure, after the two-second log-drain sleep, a wrapped `create`
error), and finally the save that persists the new record. -/
def createHost (config : MachineConfig) (w : World) : Res Host :=
  let w := preCreateHost config w
  if ¬ registryKnows config.VMDriver w then
    Res.err (MErr.exitUsage ("unsupported driver: " ++ config.VMDriver)) w
  else
    let cacheStep : Option String × World :=
      if config.VMDriver ≠ "none" then cacheISO w else (none, w)
    match cacheStep with
    | (some m, w1) => Res.err (MErr.wrap ("unable to cache ISO: " ++ m)) w1
    | (none, w1) =>
      match apiNewHost config.VMDriver (driverConfigBlob config) w1 with
      | (Except.error m, w2) => Res.err (MErr.wrap ("new host: " ++ m)) w2
      | (Except.ok h0, w2) =>
        let h := { h0 with
          AuthOptions := { CertDir := minipath, StorePath := minipath },
          EngineOptions := engineOptions config }
        match apiCreate w2 with
        | (some m, w3) => Res.err (MErr.wrap ("create: " ++ m)) w3
        | (none, w3) =>
          match apiSave h w3 with
          | (some m, w4) => Res.err (MErr.wrap ("save: " ++ m)) w4
          | (none, w4) => Res.ok h w4

/-- Tail of `StartHost` (cluster.go lines 128-133): unless the record's
driver is the no-op `none` kind, configure auth; its failure is returned as
a `RetriableError`. -/
def startHostAuth (h : Host) (w : World) : Res Host :=
  if h.DriverName ≠ "none" then
    match configureAuth w with
    | (some m, w1) =>
      Res.err (MErr.retriable ("Error configuring auth on host: " ++ m)) w1
    | (none, w1) => Res.ok h w1
  else Res.ok h w

/-- Engine-option step of `StartHost` (cluster.go lines 111-126): recompute
the options from the current config; when the recomputed docker environment
is non-empty, assign it to the in-memory record's engine options, detect the
provisioner and run the provisioning step; nothing here is persisted. -/
def startHostEngine (config : MachineConfig) (h : Host) (w : World) : Res Host :=
  let e := engineOptions config
  if e.Env.length > 0 then
    let h1 := { h with EngineOptions := { h.EngineOptions with Env := e.Env } }
    match detectProvisioner w with
    | (some m, w1) => Res.err (MErr.wrap ("detecting provisioner: " ++ m)) w1
    | (none, w1) =>
      match provisionStep w1 with
      | (some m, w2) => Res.err (MErr.wrap ("provision: " ++ m)) w2
      | (none, w2) => startHostAuth h1 w2
  else startHostAuth h w

/-- Existing-record path of `StartHost` (cluster.go lines 75-133): load the
record; if its stored driver kind differs from the requested one, only warn
and keep the existing driver; query the state fresh; a `Running` machine is
reused as-is, any other state gets the driver's start and a save of the
loaded record; then the engine-option and auth steps. -/
def startHostExisting (config : MachineConfig) (w : World) : Res Host :=
  match apiLoad w with
  | (Except.error m, w1) =>
    Res.err (MErr.wrap ("Error loading existing host. Please try running [minikube delete], then run [minikube start] again.: " ++ m)) w1
  | (Except.ok h, w1) =>
    let w2 := if h.DriverName ≠ config.VMDriver then emit Event.warnDriverMismatch w1 else w1
    match driverGetState w2 with
    | (Except.error m, w3) => Res.err (MErr.wrap ("Error getting state for host: " ++ m)) w3
    | (Except.ok s, w3) =>
      if s = MachineState.Running then startHostEngine config h w3
      else
        match driverStart w3 with
        | (some m, w4) => Res.err (MErr.wrap ("start: " ++ m)) w4
        | (none, w4) =>
          match apiSave h w4 with
          | (some m, w5) => Res.err (MErr.wrap ("save: " ++ m)) w5
          | (none, w5) => startHostEngine config h w5

/-- Translation of `StartHost` (cluster.go lines 64-134): when no record is
persisted for the machine name, create; otherwise reconcile the existing
record against the live driver state. -/
def StartHost (config : MachineConfig) (w : World) : Res Host :=
  match apiExists w with
  | (Except.error m, w1) =>
    Res.err (MErr.wrap ("machine name: " ++ machineName ++ ": " ++ m)) w1
  | (Except.ok ex, w1) =>
    if ex = false then createHost config w1
    else startHostExisting config w1

/-- Translation of `tryPowerOff` (cluster.go lines 137-155): skipped
entirely for the `none` driver; skipped when the state query fails or the
machine is not running (both only logged); otherwise run `sudo poweroff`
over SSH, whose result is logged and discarded.  No failure is ever
propagated: the function only transforms the world. -/
def tryPowerOff (h : Host) (w : World) : World :=
  if h.DriverName = "none" then w
  else
    match driverGetState w with
    | (Except.error _, w1) => w1
    | (Except.ok s, w1) =>
      if s ≠ MachineState.Running then w1
      else emit Event.powerOffSSH w1

/-- Translation of `StopHost` (cluster.go lines 158-172): load the record
and stop it; an `ErrHostAlreadyInState` for the `Stopped` state is swallowed
as success, every other stop failure comes back as a `RetriableError`. -/
def StopHost (w : World) : Res Unit :=
  match apiLoad w with
  | (Except.error m, w1) => Res.err (MErr.wrap ("load: " ++ m)) w1
  | (Except.ok _, w1) =>
    match hostStop w1 with
    | (none, w2) => Res.ok () w2
    | (some e, w2) =>
      match e with
      | StopError.alreadyInState s =>
        if s = MachineState.Stopped then Res.ok () w2
        else Res.err (MErr.retriable ("Stop: " ++ machineName)) w2
      | StopError.other m =>
        Res.err (MErr.retriable ("Stop: " ++ machineName ++ ": " ++ m)) w2

/-- Translation of `DeleteHost` (cluster.go lines 175-189): load the record,
best-effort power-off, the driver's remove (a failure is returned before any
record removal), then the store's remove. -/
def DeleteHost (w : World) : Res Unit :=
  match apiLoad w with
  | (Except.error m, w1) => Res.err (MErr.wrap ("load: " ++ m)) w1
  | (Except.ok h, w1) =>
    let w2 := tryPowerOff h w1
    match driverRemove w2 with
    | (some m, w3) => Res.err (MErr.wrap ("host remove: " ++ m)) w3
    | (none, w3) =>
      match apiRemove w3 with
      | (some m, w4) => Res.err (MErr.wrap ("api remove: " ++ m)) w4
      | (none, w4) => Res.ok () w4

/-- Translation of `GetHostStatus` (cluster.go lines 192-211): a name with
no persisted record reports the `None` state's text with no error; otherwise
the record is loaded and the driver's freshly queried state is reported as
text. -/
def GetHostStatus (w : World) : Res String :=
  match apiExists w with
  | (Except.error m, w1) =>
    Res.err (MErr.wrap (machineName ++ " exists: " ++ m)) w1
  | (Except.ok ex, w1) =>
    if ex = false then Res.ok (stateString MachineState.None) w1
    else
      match apiLoad w1 with
      | (Except.error m, w2) => Res.err (MErr.wrap ("load: " ++ m)) w2
      | (Except.ok _, w2) =>
        match driverGetState w2 with
        | (Except.error m, w3) => Res.err (MErr.wrap ("state: " ++ m)) w3
        | (Except.ok s, w3) => Res.ok (stateString s) w3

/-- The record `createHost` builds and persists for a config: the new-host
record with the cert paths and the freshly computed engine options. -/
def createdHost (config : MachineConfig) : Host :=
  { Name := machineName, DriverName := config.VMDriver,
    RawDriver := driverConfigBlob config,
    EngineOptions := engineOptions config,
    AuthOptions := { CertDir := minipath, StorePath := minipath } }

/-- The record `StartHost` returns on the existing-record path: the loaded
record, with the docker environment recomputed from the current config
applied in memory when it is non-empty. -/
def returnedHost (config : MachineConfig) (h : Host) : Host :=
  if (engineOptions config).Env.length > 0 then
    { h with EngineOptions := { h.EngineOptions with Env := (engineOptions config).Env } }
  else h

/-- Events of the existing-record path of `StartHost`: the advisory warning
when the stored driver kind differs from the requested one, then, unless the
machine already runs, the driver start and the re-save of the record. -/
def reuseEvents (config : MachineConfig) (h : Host) (live : MachineState) : List Event :=
  (if h.DriverName ≠ config.VMDriver then [Event.warnDriverMismatch] else []) ++
  (if live = MachineState.Running then [] else [Event.driverStart, Event.save])

/-- Formalisation of the spec's power-off contract: the guest power-off is
skipped for the `none` driver, when the state cannot be determined, and when
the machine is not running; otherwise exactly one SSH power-off happens. -/
def powerOffTrace (h : Host) (serr : Option String) (live : MachineState) : List Event :=
  if h.DriverName = "none" ∨ serr.isSome = true ∨ live ≠ MachineState.Running then []
  else [Event.powerOffSSH]

/-- Number of occurrences of one event in a trace. -/
def countEvent (e : Event) : List Event → Nat
  | [] => 0
  | x :: rest => (if x = e then 1 else 0) + countEvent e rest

/-- A concrete fresh configuration used to instantiate the general
theorems. -/
def exampleConfig : MachineConfig :=
  { VMDriver := "virtualbox", CPUs := 2, Memory := 2048, DiskSize := 20000,
    DockerEnv := [], InsecureRegistry := [], RegistryMirror := [], DockerOpt := [],
    MinikubeISO := "https://storage.example/minikube.iso" }

/-- A concrete configuration whose insecure-registry list was changed after
the machine was created. -/
def c3Config : MachineConfig :=
  { VMDriver := "virtualbox", CPUs := 2, Memory := 2048, DiskSize := 20000,
    DockerEnv := [], InsecureRegistry := ["new.registry.example:5000"],
    RegistryMirror := [], DockerOpt := [], MinikubeISO := "" }

/-- The persisted record of a machine created before the insecure-registry
list changed. -/
def c3Host : Host :=
  { Name := "minikube", DriverName := "virtualbox",
    RawDriver := "driver-config:virtualbox",
    EngineOptions :=
      { Env := [], InsecureRegistry := ["10.96.0.0/12", "old.registry.example:5000"],
        RegistryMirror := [], ArbitraryFlags := [] },
    AuthOptions := { CertDir := ".minikube", StorePath := ".minikube" } }

/-- A concrete configuration requesting the `kvm2` driver. -/
def c4Config : MachineConfig :=
  { VMDriver := "kvm2", CPUs := 2, Memory := 2048, DiskSize := 20000,
    DockerEnv := [], InsecureRegistry := [], RegistryMirror := [], DockerOpt := [],
    MinikubeISO := "" }

/-- A concrete persisted record created with the `virtualbox` driver. -/
def c4Host : Host :=
  { Name := "minikube", DriverName := "virtualbox",
    RawDriver := "driver-config:virtualbox",
    EngineOptions := { Env := [], InsecureRegistry := [], RegistryMirror := [], ArbitraryFlags := [] },
    AuthOptions := { CertDir := ".minikube", StorePath := ".minikube" } }

/-- A concrete configuration naming a driver kind outside the recognized
set. -/
def c7Config : MachineConfig :=
  { VMDriver := "podman", CPUs := 2, Memory := 2048, DiskSize := 20000,
    DockerEnv := [], InsecureRegistry := [], RegistryMirror := [], DockerOpt := [],
    MinikubeISO := "" }

/-- A concrete record whose driver kind is outside the recognized set. -/
def c7Host : Host :=
  { Name := "minikube", DriverName := "podman", RawDriver := "",
    EngineOptions := { Env := [], InsecureRegistry := [], RegistryMirror := [], ArbitraryFlags := [] },
    AuthOptions := { CertDir := "", StorePath := "" } }

/-- A concrete `kvm` record (fixed-gateway driver kind). -/
def kvmHost : Host :=
  { Name := "minikube", DriverName := "kvm", RawDriver := "driver-config:kvm",
    EngineOptions := { Env := [], InsecureRegistry := [], RegistryMirror := [], ArbitraryFlags := [] },
    AuthOptions := { CertDir := "", StorePath := "" } }

/-- A concrete `hyperv` record whose raw driver configuration blob contains
no `VSwitch` entry matching the expected pattern. -/
def hypervBadHost : Host :=
  { Name := "minikube", DriverName := "hyperv",
    RawDriver := "raw driver blob without a vswitch entry",
    EngineOptions := { Env := [], InsecureRegistry := [], RegistryMirror := [], ArbitraryFlags := [] },
    AuthOptions := { CertDir := "", StorePath := "" } }

/-- A concrete `virtualbox` record, paired below with management-tool output
that contains no `hostonlyadapter2` entry. -/
def vboxBadHost : Host :=
  { Name := "minikube", DriverName := "virtualbox", RawDriver := "",
    EngineOptions := { Env := [], InsecureRegistry := [], RegistryMirror := [], ArbitraryFlags := [] },
    AuthOptions := { CertDir := "", StorePath := "" } }

/-- An interface table on which every lookup fails: no interface of any
name exists on the host. -/
def noIfaces : IfaceTable := fun _ => none

/-- A concrete `hyperv` record whose raw driver blob does contain a
`VSwitch` entry, but one interrupted by a newline: since `.` does not match
a newline in a Go regular expression, `FindStringSubmatch` still returns
nil on it. -/
def hypervNewlineHost : Host :=
  { Name := "minikube", DriverName := "hyperv",
    RawDriver := "\x22VSwitch\x22: \x22abc\nxyz\x22,",
    EngineOptions := { Env := [], InsecureRegistry := [], RegistryMirror := [], ArbitraryFlags := [] },
    AuthOptions := { CertDir := "", StorePath := "" } }

/-- Management-tool output with a `hostonlyadapter2` entry interrupted by a
newline, on which the pattern likewise finds no match. -/
def vboxNewlineOut : String := "hostonlyadapter2=\x22abc\nxyz\x22"

theorem countEvent_append (e : Event) (a b : List Event) :
    countEvent e (a ++ b) = countEvent e a + countEvent e b := by
  induction a with
  | nil => simp [countEvent]
  | cons x rest ih => simp [countEvent, ih]; omega

theorem startHost_existing_run (config : MachineConfig) (h : Host) (live : MachineState)
    (ev : List Event) (kd : List String) :
    StartHost config (World.clean (some h) live ev kd) =
      Res.ok (returnedHost config h)
        (World.clean (some h) MachineState.Running (ev ++ reuseEvents config h live) kd) := by
  obtain ⟨nm, dn, raw, eo, ao⟩ := h
  rcases eq_or_ne dn config.VMDriver with hm | hm
  · subst hm
    by_cases hn : config.VMDriver = "none" <;>
    by_cases hr : live = MachineState.Running <;>
    by_cases he : (engineOptions config).Env.length > 0 <;>
    simp [StartHost, apiExists, World.clean, startHostExisting, apiLoad, emit,
          driverGetState, driverStart, apiSave, startHostEngine, startHostAuth,
          detectProvisioner, provisionStep, configureAuth, returnedHost, reuseEvents,
          hn, hr, he]
  · rcases eq_or_ne dn "none" with hn | hn
    · subst hn
      by_cases hr : live = MachineState.Running <;>
      by_cases he : (engineOptions config).Env.length > 0 <;>
      simp [StartHost, apiExists, World.clean, startHostExisting, apiLoad, emit,
            driverGetState, driverStart, apiSave, startHostEngine, startHostAuth,
            detectProvisioner, provisionStep, configureAuth, returnedHost, reuseEvents,
            hm, hr, he]
    · by_cases hr : live = MachineState.Running <;>
      by_cases he : (engineOptions config).Env.length > 0 <;>
      simp [StartHost, apiExists, World.clean, startHostExisting, apiLoad, emit,
            driverGetState, driverStart, apiSave, startHostEngine, startHostAuth,
            detectProvisioner, provisionStep, configureAuth, returnedHost, reuseEvents,
            hm, hn, hr, he]

theorem startHost_fresh_run (config : MachineConfig) (l : MachineState)
    (ev : List Event) (kd : List String) (hknown : config.VMDriver ∈ kd) :
    StartHost config (World.clean none l ev kd) =
      Res.ok (createdHost config)
        (World.clean (some (createdHost config)) MachineState.Running
          (ev ++ [Event.create, Event.save]) kd) := by
  by_cases hn : config.VMDriver = "none" <;>
  simp [StartHost, apiExists, World.clean, createHost, preCreateHost, registryKnows,
        cacheISO, apiNewHost, apiCreate, apiSave, emit, createdHost, hknown, hn] <;>
  simpa [hn] using hknown

theorem returnedHost_created (config : MachineConfig) :
    returnedHost config (createdHost config) = createdHost config := by
  by_cases he : (engineOptions config).Env.length > 0 <;>
  simp [returnedHost, createdHost, he]

theorem reuseEvents_created (config : MachineConfig) :
    reuseEvents config (createdHost config) MachineState.Running = [] := by
  simp [reuseEvents, createdHost]

/-- C1: for every configuration whose machine name has no persisted record,
the first `StartHost` call creates the machine (invoking the store's create
operation) and persists a new record; the second `StartHost` call for the
same name performs no creation at all (the trace gains no event, so the
store's create stays invoked exactly once per name), and the driver
reporting the machine `Running`, it is reused as-is: both calls return the
machine with the live driver state `Running`. -/
theorem startHost_idempotent_create_once (config : MachineConfig)
    (l : MachineState) (ev : List Event) (kd : List String)
    (hknown : config.VMDriver ∈ kd) :
    StartHost config (World.clean none l ev kd) =
      Res.ok (createdHost config)
        (World.clean (some (createdHost config)) MachineState.Running
          (ev ++ [Event.create, Event.save]) kd) ∧
    StartHost config
        (World.clean (some (createdHost config)) MachineState.Running
          (ev ++ [Event.create, Event.save]) kd) =
      Res.ok (createdHost config)
        (World.clean (some (createdHost config)) MachineState.Running
          (ev ++ [Event.create, Event.save]) kd) ∧
    countEvent Event.create (ev ++ [Event.create, Event.save]) =
      countEvent Event.create ev + 1 := by
  refine ⟨startHost_fresh_run config l ev kd hknown, ?_, ?_⟩
  · have h2 := startHost_existing_run config (createdHost config) MachineState.Running
      (ev ++ [Event.create, Event.save]) kd
    simpa [returnedHost_created, reuseEvents_created] using h2
  · simp [countEvent_append, countEvent]

/-- Witness for C1 at a concrete fresh `virtualbox` configuration. -/
theorem startHost_idempotent_create_once_witness :
    exampleConfig.VMDriver ∈ ["virtualbox"] ∧
    (StartHost exampleConfig (World.clean none MachineState.None [] ["virtualbox"]) =
      Res.ok (createdHost exampleConfig)
        (World.clean (some (createdHost exampleConfig)) MachineState.Running
          ([] ++ [Event.create, Event.save]) ["virtualbox"]) ∧
    StartHost exampleConfig
        (World.clean (some (createdHost exampleConfig)) MachineState.Running
          ([] ++ [Event.create, Event.save]) ["virtualbox"]) =
      Res.ok (createdHost exampleConfig)
        (World.clean (some (createdHost exampleConfig)) MachineState.Running
          ([] ++ [Event.create, Event.save]) ["virtualbox"]) ∧
    countEvent Event.create ([] ++ [Event.create, Event.save]) =
      countEvent Event.create [] + 1) :=
  ⟨by decide,
   startHost_idempotent_create_once exampleConfig MachineState.None [] ["virtualbox"] (by decide)⟩

/-- C2: `DeleteHost` runs, in order, the best-effort guest power-off (absent
from the trace exactly when the driver is `none`, the state query fails, or
the machine is not running — and never able to fail the operation), then the
driver's remove, whose failure is returned as a wrapped error with the
persisted record left in place, then the store's record removal; only when
the driver teardown succeeded is the record removed. -/
theorem deleteHost_order_and_errors (h : Host) (live : MachineState) (ev : List Event)
    (kd : List String) (serr rerr arerr : Option String) :
    DeleteHost { World.clean (some h) live ev kd with
        stateErr := serr, removeErr := rerr, apiRemoveErr := arerr } =
      match rerr with
      | some m =>
        Res.err (MErr.wrap ("host remove: " ++ m))
          { World.clean (some h) live ev kd with
            stateErr := serr, removeErr := rerr, apiRemoveErr := arerr,
            events := ev ++ powerOffTrace h serr live ++ [Event.driverRemove] }
      | none =>
        match arerr with
        | some m =>
          Res.err (MErr.wrap ("api remove: " ++ m))
            { World.clean (some h) live ev kd with
              stateErr := serr, removeErr := rerr, apiRemoveErr := arerr,
              events := ev ++ powerOffTrace h serr live ++ [Event.driverRemove, Event.apiRemove] }
        | none =>
          Res.ok ()
            { World.clean (some h) live ev kd with
              stateErr := serr, removeErr := rerr, apiRemoveErr := arerr,
              store := none,
              events := ev ++ powerOffTrace h serr live ++ [Event.driverRemove, Event.apiRemove] } := by
  rcases serr with _ | sm <;>
  rcases rerr with _ | rm <;>
  rcases arerr with _ | am <;>
  by_cases hdn : h.DriverName = "none" <;>
  by_cases hr : live = MachineState.Running <;>
  simp [DeleteHost, apiLoad, tryPowerOff, driverGetState, driverRemove, apiRemove,
        emit, World.clean, powerOffTrace, hdn, hr]

/-- C3 counterexample: starting an existing, running machine with a changed
insecure-registry list does NOT update the persisted engine options — the
call returns with the world (store included) exactly as it was, although the
engine options recomputed from the current config differ from the persisted
ones. -/
theorem startHost_reuse_counterexample :
    StartHost c3Config (World.clean (some c3Host) MachineState.Running [] ["virtualbox"]) =
      Res.ok c3Host (World.clean (some c3Host) MachineState.Running [] ["virtualbox"]) ∧
    (engineOptions c3Config).InsecureRegistry ≠ c3Host.EngineOptions.InsecureRegistry ∧
    c3Config.InsecureRegistry ≠ [] := by
  refine ⟨rfl, by decide, by decide⟩

/-- C3 (amended): on every `StartHost` call against an existing running
machine, the engine options are recomputed from the currently supplied
config (insecure registries always prefixed with the default service CIDR);
the machine is not recreated (no create event) and the persisted record is
left unchanged — only the recomputed docker environment, when non-empty, is
applied to the in-memory record that is returned. -/
theorem startHost_reuse_recomputes_without_persisting (config : MachineConfig)
    (h : Host) (ev : List Event) (kd : List String) :
    engineOptions config =
      { Env := config.DockerEnv,
        InsecureRegistry := DefaultServiceCIDR :: config.InsecureRegistry,
        RegistryMirror := config.RegistryMirror,
        ArbitraryFlags := config.DockerOpt } ∧
    StartHost config (World.clean (some h) MachineState.Running ev kd) =
      Res.ok (returnedHost config h)
        (World.clean (some h) MachineState.Running
          (ev ++ (if h.DriverName ≠ config.VMDriver then [Event.warnDriverMismatch] else [])) kd) ∧
    countEvent Event.create
        (ev ++ (if h.DriverName ≠ config.VMDriver then [Event.warnDriverMismatch] else [])) =
      countEvent Event.create ev := by
  refine ⟨rfl, ?_, ?_⟩
  · simpa [reuseEvents] using startHost_existing_run config h MachineState.Running ev kd
  · by_cases hm : h.DriverName ≠ config.VMDriver <;>
    simp [hm, countEvent_append, countEvent]

/-- C4: a `StartHost` call on an existing record whose stored driver kind
differs from the requested one returns successfully, only emits the
advisory warning, keeps the record's driver kind (the store still holds the
loaded record `h`, and the returned record keeps `h`'s driver name), and
performs no creation. -/
theorem startHost_driver_mismatch_advisory (config : MachineConfig) (h : Host)
    (live : MachineState) (ev : List Event) (kd : List String)
    (hne : h.DriverName ≠ config.VMDriver) :
    StartHost config (World.clean (some h) live ev kd) =
      Res.ok (returnedHost config h)
        (World.clean (some h) MachineState.Running
          (ev ++ [Event.warnDriverMismatch] ++
            (if live = MachineState.Running then [] else [Event.driverStart, Event.save])) kd) ∧
    (returnedHost config h).DriverName = h.DriverName ∧
    countEvent Event.create
        (ev ++ [Event.warnDriverMismatch] ++
          (if live = MachineState.Running then [] else [Event.driverStart, Event.save])) =
      countEvent Event.create ev := by
  refine ⟨?_, ?_, ?_⟩
  · have h1 := startHost_existing_run config h live ev kd
    simpa [reuseEvents, hne, List.append_assoc] using h1
  · by_cases he : (engineOptions config).Env.length > 0 <;> simp [returnedHost, he]
  · by_cases hr : live = MachineState.Running <;>
    simp [hr, countEvent_append, countEvent]

/-- Witness for C4: requesting `kvm2` for an existing running `virtualbox`
machine. -/
theorem startHost_driver_mismatch_advisory_witness :
    c4Host.DriverName ≠ c4Config.VMDriver ∧
    (StartHost c4Config (World.clean (some c4Host) MachineState.Running [] ["kvm2"]) =
      Res.ok (returnedHost c4Config c4Host)
        (World.clean (some c4Host) MachineState.Running
          ([] ++ [Event.warnDriverMismatch] ++
            (if MachineState.Running = MachineState.Running then []
             else [Event.driverStart, Event.save])) ["kvm2"]) ∧
    (returnedHost c4Config c4Host).DriverName = c4Host.DriverName ∧
    countEvent Event.create
        ([] ++ [Event.warnDriverMismatch] ++
          (if MachineState.Running = MachineState.Running then []
           else [Event.driverStart, Event.save])) =
      countEvent Event.create []) :=
  ⟨by decide,
   startHost_driver_mismatch_advisory c4Config c4Host MachineState.Running [] ["kvm2"] (by decide)⟩

/-- C5: `StopHost` swallows the driver's already-in-`Stopped`-state error
and returns success; an already-in-state error for any other state, and any
other stop failure, come back wrapped as retriable errors; a plain
successful stop also returns success. -/
theorem stopHost_already_stopped_ok (h : Host) (live : MachineState) (ev : List Event)
    (kd : List String) (sres : Option StopError) :
    StopHost { World.clean (some h) live ev kd with stopRes := sres } =
      match sres with
      | none =>
        Res.ok ()
          { World.clean (some h) live ev kd with
            stopRes := sres, live := MachineState.Stopped, events := ev ++ [Event.stop] }
      | some (StopError.alreadyInState s) =>
        if s = MachineState.Stopped then
          Res.ok () { World.clean (some h) live ev kd with stopRes := sres }
        else
          Res.err (MErr.retriable ("Stop: " ++ machineName))
            { World.clean (some h) live ev kd with stopRes := sres }
      | some (StopError.other m) =>
        Res.err (MErr.retriable ("Stop: " ++ machineName ++ ": " ++ m))
          { World.clean (some h) live ev kd with stopRes := sres } := by
  rcases sres with _ | e
  · simp [StopHost, apiLoad, hostStop, World.clean]
  · rcases e with s | m
    · by_cases hs : s = MachineState.Stopped <;>
      simp [StopHost, apiLoad, hostStop, World.clean, hs]
    · simp [StopHost, apiLoad, hostStop, World.clean]

/-- C6: `GetHostStatus` for a name with no persisted record returns the
`None` state's textual form and no error; when a record exists it returns
the driver's freshly queried current state as text, whatever that live
state is. -/
theorem getHostStatus_none_and_live (h : Host) (live : MachineState)
    (ev : List Event) (kd : List String) :
    GetHostStatus (World.clean none live ev kd) =
      Res.ok (stateString MachineState.None) (World.clean none live ev kd) ∧
    GetHostStatus (World.clean (some h) live ev kd) =
      Res.ok (stateString live) (World.clean (some h) live ev kd) := by
  constructor <;> simp [GetHostStatus, apiExists, apiLoad, driverGetState, World.clean]

/-- C7: a driver kind outside the recognized set makes `createHost` (hence
`StartHost` for a fresh name) fail with the driver registry's not-found
condition, surfaced as the usage exit, with the world — store, live state
and trace — untouched; and `GetVMHostIP` on a record whose driver kind is
outside its recognized set returns the unsupported-driver error, being a
pure function with no side effects. -/
theorem unsupported_driver_rejected (config : MachineConfig) (l : MachineState)
    (ev : List Event) (kd : List String) (h : Host) (ifaces : IfaceTable)
    (vb : Except String String)
    (hnk : config.VMDriver ∉ kd)
    (hd : h.DriverName ∉ ["kvm", "kvm2", "hyperv", "virtualbox", "xhyve", "hyperkit"]) :
    StartHost config (World.clean none l ev kd) =
      Res.err (MErr.exitUsage ("unsupported driver: " ++ config.VMDriver))
        (World.clean none l ev kd) ∧
    GetVMHostIP h ifaces vb =
      some (Except.error "Error, attempted to get host ip address for unsupported driver") := by
  constructor
  · simp [StartHost, apiExists, World.clean, createHost, preCreateHost, registryKnows, hnk]
  · have hd' : ¬(h.DriverName = "kvm" ∨ h.DriverName = "kvm2" ∨ h.DriverName = "hyperv" ∨
        h.DriverName = "virtualbox" ∨ h.DriverName = "xhyve" ∨ h.DriverName = "hyperkit") := by
      simpa using hd
    push_neg at hd'
    obtain ⟨h1, h2, h3, h4, h5, h6⟩ := hd'
    simp [GetVMHostIP, h1, h2, h3, h4, h5, h6]

/-- Witness for C7 with the unrecognized kind `podman`. -/
theorem unsupported_driver_rejected_witness :
    c7Config.VMDriver ∉ ["virtualbox"] ∧
    c7Host.DriverName ∉ ["kvm", "kvm2", "hyperv", "virtualbox", "xhyve", "hyperkit"] ∧
    (StartHost c7Config (World.clean none MachineState.None [] ["virtualbox"]) =
      Res.err (MErr.exitUsage ("unsupported driver: " ++ c7Config.VMDriver))
        (World.clean none MachineState.None [] ["virtualbox"]) ∧
    GetVMHostIP c7Host noIfaces (Except.ok "") =
      some (Except.error "Error, attempted to get host ip address for unsupported driver")) :=
  ⟨by decide, by decide,
   unsupported_driver_rejected c7Config MachineState.None [] ["virtualbox"] c7Host noIfaces
     (Except.ok "") (by decide) (by decide)⟩

set_option maxRecDepth 40000 in
/-- C8: the mount command rendered for ip=10.0.0.2, path=/mnt/x, port=5000,
version=9p2000.L, uid=1000, gid=1000, msize=262144 contains exactly one
`mkdir`, exactly one `mount -t 9p` whose option string is
`trans=tcp,port=5000,dfltuid=1000,dfltgid=1000,version=9p2000.L,msize=262144 10.0.0.2 /mnt/x`,
and exactly one `chmod 775` on `/mnt/x`; and the cleanup command for
`/mnt/x` is exactly `sudo umount /mnt/x;`. -/
theorem mount_command_shape :
    countOccur "mkdir"
      (GetMountCommand "10.0.0.2" "/mnt/x" "5000" "9p2000.L" 1000 1000 262144) = 1 ∧
    countOccur "mount -t 9p"
      (GetMountCommand "10.0.0.2" "/mnt/x" "5000" "9p2000.L" 1000 1000 262144) = 1 ∧
    countOccur "trans=tcp,port=5000,dfltuid=1000,dfltgid=1000,version=9p2000.L,msize=262144 10.0.0.2 /mnt/x"
      (GetMountCommand "10.0.0.2" "/mnt/x" "5000" "9p2000.L" 1000 1000 262144) = 1 ∧
    countOccur "chmod 775 /mnt/x"
      (GetMountCommand "10.0.0.2" "/mnt/x" "5000" "9p2000.L" 1000 1000 262144) = 1 ∧
    GetMountCleanupCommand "/mnt/x" = "sudo umount /mnt/x;" := by
  refine ⟨by decide, by decide, by decide, by decide, rfl⟩

/-- C9: `getIPForInterface` walks the interface's addresses in the order
the network API returns them and yields the first one that has a valid IPv4
representation (IPv6-only addresses are passed over); when no address of
the interface has one — in particular when the interface does not exist and
the address list is empty — it fails with the no-IPv4-found error. -/
theorem getIPForInterface_first_ipv4 (name : String) (ifaces : IfaceTable) :
    getIPForInterface name ifaces =
      match firstIPv4 ((ifaces name).getD []) with
      | some ip => Except.ok ip
      | none => Except.error ("Error finding IPV4 address for " ++ name) := by
  have hgen : ∀ as : List Addr, loopV4 name as =
      match firstIPv4 as with
      | some ip => Except.ok ip
      | none => Except.error ("Error finding IPV4 address for " ++ name) := by
    intro as
    induction as with
    | nil => simp [loopV4, firstIPv4]
    | cons a rest ih =>
      cases a with
      | ipNet to4 =>
        cases to4 <;> simp [loopV4, firstIPv4, hasIPv4, addrIPv4, List.find?, ih]
      | other => simp [loopV4, firstIPv4, hasIPv4, addrIPv4, List.find?, ih]
  cases hif : ifaces name <;> simp [getIPForInterface, hif, hgen]

/-- C10 counterexample: `GetVMHostIP` does crash on two of the named
inputs — a `hyperv` record whose raw driver blob has no `VSwitch` entry
matching the pattern, and a `virtualbox` record whose management-tool
output has no `hostonlyadapter2` entry: in both cases the nil result of
`FindStringSubmatch` is indexed, a panic (`none` in the model).  The same
happens when the entry is present but interrupted by a newline, which `.`
does not match, so the pattern still finds nothing. -/
theorem getVMHostIP_crash_counterexample :
    GetVMHostIP hypervBadHost noIfaces (Except.ok "") = none ∧
    GetVMHostIP vboxBadHost noIfaces (Except.ok "storagecontrollername0=IDE") = none ∧
    GetVMHostIP hypervNewlineHost noIfaces (Except.ok "") = none ∧
    GetVMHostIP vboxBadHost noIfaces (Except.ok vboxNewlineOut) = none :=
  ⟨rfl, rfl, rfl, rfl⟩

/-- C10 (amended): `getIPForInterface` never crashes — on a missing
interface it returns the no-IPv4 error — and `GetVMHostIP` returns an IP or
an error on every input on which the `hyperv` VSwitch pattern
(respectively the `virtualbox` hostonlyadapter2 pattern) finds a match;
only a failed pattern match makes `GetVMHostIP` panic. -/
theorem getVMHostIP_no_crash_unless_pattern_mismatch (host : Host)
    (ifaces : IfaceTable) (vb : Except String String) (name : String)
    (hh : host.DriverName = "hyperv" →
      (regexCapture "\x22VSwitch\x22: \x22" "\x22," host.RawDriver).isSome = true)
    (hv : ∀ out, host.DriverName = "virtualbox" → vb = Except.ok out →
      (regexCapture "hostonlyadapter2=\x22" "\x22" out).isSome = true) :
    (GetVMHostIP host ifaces vb).isSome = true ∧
    (ifaces name = none →
      getIPForInterface name ifaces =
        Except.error ("Error finding IPV4 address for " ++ name)) := by
  constructor
  · by_cases h1 : host.DriverName = "kvm"
    · simp [GetVMHostIP, h1]
    · by_cases h2 : host.DriverName = "kvm2"
      · simp [GetVMHostIP, h1, h2]
      · by_cases h3 : host.DriverName = "hyperv"
        · rcases Option.isSome_iff_exists.mp (hh h3) with ⟨sw, hsw⟩
          cases hip : getIPForInterface ("vEthernet (" ++ sw ++ ")") ifaces <;>
          simp [GetVMHostIP, h1, h2, h3, hsw, hip]
        · by_cases h4 : host.DriverName = "virtualbox"
          · cases vb with
            | error m => simp [GetVMHostIP, h1, h2, h3, h4]
            | ok out =>
              rcases Option.isSome_iff_exists.mp (hv out h4 rfl) with ⟨ifc, hifc⟩
              cases hip : getIPForInterface ifc ifaces <;>
              simp [GetVMHostIP, h1, h2, h3, h4, hifc, hip]
          · by_cases h5 : host.DriverName = "xhyve" <;>
            by_cases h6 : host.DriverName = "hyperkit" <;>
            simp [GetVMHostIP, h1, h2, h3, h4, h5, h6]
  · intro hnone
    simp [getIPForInterface, hnone, loopV4]

/-- Witness for the amended C10 at a `kvm` record (fixed gateway, both
pattern hypotheses vacuous) and a missing interface name. -/
theorem getVMHostIP_no_crash_witness :
    (GetVMHostIP kvmHost noIfaces (Except.ok "")).isSome = true ∧
    (noIfaces "eth1" = none →
      getIPForInterface "eth1" noIfaces =
        Except.error ("Error finding IPV4 address for " ++ "eth1")) :=
  getVMHostIP_no_crash_unless_pattern_mismatch kvmHost noIfaces (Except.ok "") "eth1"
    (by decide) (fun out h _ => absurd h (by decide))
